import Mathlib

/-!
Verification of the criteria-based destination resolution and grounding logic
of the voice travel assistant (app/backend/ragtools.py), via a shallow
embedding of the relevant functions.
-/

namespace RagTools

/-- The single-quote character used to delimit values in filter strings. -/
def sq : String := "\x27"

/-! ### Grounding verifier (KEY_PATTERN and the source filter in
_report_grounding_tool, ragtools.py lines 407 and 411-442). -/

/-- One character of the allow-list class of KEY_PATTERN:
letters, digits, underscore, equals sign, hyphen. -/
def keyChar (c : Char) : Bool :=
  (Char.ofNat 97 ≤ c && c ≤ Char.ofNat 122) ||
  (Char.ofNat 65 ≤ c && c ≤ Char.ofNat 90) ||
  (Char.ofNat 48 ≤ c && c ≤ Char.ofNat 57) ||
  c = Char.ofNat 95 || c = Char.ofNat 61 || c = Char.ofNat 45

/-- KEY_PATTERN.match s for the anchored pattern over the allow-list class.
Python re semantics: the dollar anchor matches at the end of the string or
just before one newline (Char.ofNat 10) that ends the string, so a key
consisting of one or more class characters followed by at most one trailing
newline matches. -/
def keyMatches (s : String) : Bool :=
  let chars := s.data
  let body := if chars.getLast? = some (Char.ofNat 10) then chars.dropLast else chars
  !body.isEmpty && body.all keyChar

/-- Line 417 of ragtools.py: the list comprehension keeping the claimed
sources accepted by KEY_PATTERN.match. -/
def verifySources (claimed : List String) : List String :=
  claimed.filter keyMatches

/-- A record of the search index as selected by the commented-out grounding
re-query (chunk_id, title, chunk). -/
structure GroundingRecord where
  chunk_id : String
  title : String
  chunk : String
deriving DecidableEq

/-- The search collaborator index visible to _report_grounding_tool. -/
structure SearchIndex where
  docs : List GroundingRecord
deriving DecidableEq

/-- Embeds _report_grounding_tool (lines 411-442): the claimed sources are
filtered through KEY_PATTERN; the block that would re-query the search
collaborator is commented out in the source, so the tool returns the filtered
keys themselves and never reads the index. -/
def report_grounding_tool (_index : SearchIndex) (sources : List String) :
    List String :=
  let validated := sources.filter keyMatches
  validated

/-! ### Constraint resolver (get_destinations_by_duration and
get_destinations_by_price, ragtools.py lines 146-189). -/

/-- One row of the dbo.FlightDuration table. -/
structure DurationRow where
  Source : String
  Destination : String
  Duration : Rat
deriving DecidableEq

/-- One row of the dbo.FlightPrice table (the range query only binds
Source and Price, so only those columns and Destination are modelled). -/
structure PriceRow where
  Source : String
  Destination : String
  Price : Rat
deriving DecidableEq

/-- The structured data store. -/
structure FlightDB where
  flightDuration : List DurationRow
  flightPrice : List PriceRow
deriving DecidableEq

/-- Embeds get_destinations_by_duration (lines 146-166): rows with the given
Source and Duration less than or equal to the bound, their Destination
column; the empty-row case returns the empty list. The JSON round trip
(json.dumps in the helper, json.loads at the call site) is the identity on
the list of destination strings. -/
def get_destinations_by_duration (source : String) (duration : Rat)
    (conn : FlightDB) : List String :=
  let rows := conn.flightDuration.filter fun r =>
    decide (r.Source = source) && decide (r.Duration ≤ duration)
  if !rows.isEmpty then rows.map fun r => r.Destination else []

/-- Embeds get_destinations_by_price (lines 169-189), analogous to the
duration resolver over dbo.FlightPrice. -/
def get_destinations_by_price (source : String) (price : Rat)
    (conn : FlightDB) : List String :=
  let rows := conn.flightPrice.filter fun r =>
    decide (r.Source = source) && decide (r.Price ≤ price)
  if !rows.isEmpty then rows.map fun r => r.Destination else []

/-! ### The find_destination tool (_find_destination_tool,
ragtools.py lines 192-290). -/

/-- Python truthiness of the duration variable: None and 0 are falsy. -/
def pyTruthyInt : Option Int → Bool
  | none => false
  | some v => v != 0

/-- Python truthiness of the price variable: None and 0 are falsy. -/
def pyTruthyRat : Option Rat → Bool
  | none => false
  | some v => v != 0

/-- The argument object of a find_destination invocation. A field holds
none when the corresponding key is absent from the JSON arguments;
current_location is the only required key of the tool schema. -/
structure FindArgs where
  current_location : String
  max_flight_duration : Option Int := none
  max_price : Option Rat := none
  categories : Option (List String) := none
  content : Option String := none

/-- The outcome of one resolver query as issued over the open connection:
either the fetched destination rows, or a raised exception. -/
inductive QueryOutcome where
  | rows (destinations : List String)
  | raises (msg : String)

/-- The structured store as reachable through one pyodbc connection: each
resolver call, given its bound parameters, either returns rows or raises. -/
structure StoreConn where
  durationQuery : String → Rat → QueryOutcome
  priceQuery : String → Rat → QueryOutcome

/-- A healthy connection to a concrete database: every query returns the
rows computed by the corresponding resolver, and never raises. -/
def healthyConn (db : FlightDB) : StoreConn where
  durationQuery := fun source duration =>
    QueryOutcome.rows (get_destinations_by_duration source duration db)
  priceQuery := fun source price =>
    QueryOutcome.rows (get_destinations_by_price source price db)

/-- The message of the exception raised at line 213 of ragtools.py, where
the bare statement categories reads the local variable that no branch
has assigned when the categories key is absent. -/
def unboundLocalMsg : String :=
  "UnboundLocalError: local variable categories referenced before assignment"

/-- Embeds lines 242-247: the eligibility-combining step. The branches test
Python truthiness of the two result lists, that is their non-emptiness; the
set intersection of the first branch is modelled as an order-fixed
duplicate-free list of the common elements. -/
def combineDestinations (destinations_by_duration destinations_by_price : List String) :
    List String :=
  if !destinations_by_duration.isEmpty && !destinations_by_price.isEmpty then
    (destinations_by_duration.filter fun d =>
      destinations_by_price.contains d).dedup
  else if !destinations_by_duration.isEmpty then
    destinations_by_duration
  else
    destinations_by_price

/-- Embeds lines 240-261: the filter string synthesized from the combined
destination list and the categories list. -/
def synthesizeFilter (intersection_of_destinations categories : List String) : String :=
  let filter_string := ""
  let filter_string :=
    if !intersection_of_destinations.isEmpty then
      String.intercalate " or "
        (intersection_of_destinations.map fun destination =>
          "iata_code eq " ++ sq ++ destination ++ sq)
    else filter_string
  if !categories.isEmpty then
    let category_filter_string :=
      String.intercalate " and "
        (categories.map fun category =>
          "categories/any(c: c eq " ++ sq ++ category ++ sq ++ ")")
    if filter_string != "" then
      "(" ++ filter_string ++ ") and (" ++ category_filter_string ++ ")"
    else
      category_filter_string
  else
    filter_string

/-- The values the tool has computed when it reaches the search call. -/
structure FindDestinationTrace where
  destinations_by_duration : List String
  destinations_by_price : List String
  intersection_of_destinations : List String
  filter_string : String
  content : String
  duration_query_issued : Bool
  price_query_issued : Bool
deriving DecidableEq

/-- One run of the tool: the outcome (the computed trace, or the message of
a propagated exception), and whether the pyodbc connection of line 222 was
opened and whether conn.close() of line 237 ran. -/
structure FindRun where
  outcome : Except String FindDestinationTrace
  conn_opened : Bool
  conn_released : Bool

/-- Embeds _find_destination_tool (lines 192-290) up to the search call.
Argument parsing follows the source order: duration, price, categories
(where an absent key executes the bare statement categories of line 213 and
raises), content. The connection is opened at line 222, the two resolver
queries are guarded by Python truthiness of duration and price, and
conn.close() at line 237 runs only if neither query raised - there is no
try/finally in the source. -/
def find_destination_tool (conn : StoreConn) (args : FindArgs) : FindRun :=
  let source := args.current_location
  let duration := args.max_flight_duration
  let price := args.max_price
  match args.categories with
  | none => ⟨Except.error unboundLocalMsg, false, false⟩
  | some categories =>
    let content := args.content
    -- line 222: conn = pyodbc.connect(db_conn_string)
    let duration_result : Except String (List String) :=
      match duration with
      | some d =>
        if d != 0 then
          match conn.durationQuery source (d : Rat) with
          | QueryOutcome.rows ds => Except.ok ds
          | QueryOutcome.raises m => Except.error m
        else Except.ok []
      | none => Except.ok []
    match duration_result with
    | Except.error m => ⟨Except.error m, true, false⟩
    | Except.ok destinations_by_duration =>
      let price_result : Except String (List String) :=
        match price with
        | some p =>
          if p != 0 then
            match conn.priceQuery source p with
            | QueryOutcome.rows ds => Except.ok ds
            | QueryOutcome.raises m => Except.error m
          else Except.ok []
        | none => Except.ok []
      match price_result with
      | Except.error m => ⟨Except.error m, true, false⟩
      | Except.ok destinations_by_price =>
        -- line 237: conn.close()
        let intersection_of_destinations :=
          combineDestinations destinations_by_duration destinations_by_price
        let filter_string := synthesizeFilter intersection_of_destinations categories
        let content := match content with
          | none => "travel"
          | some c => c
        ⟨Except.ok ⟨destinations_by_duration, destinations_by_price,
            intersection_of_destinations, filter_string, content,
            pyTruthyInt duration, pyTruthyRat price⟩,
         true, true⟩

/-- Whether a duration resolver query was issued during the run. -/
def durationQueryIssued (run : FindRun) : Bool :=
  match run.outcome with
  | Except.ok t => t.duration_query_issued
  | Except.error _ => false

/-- Whether a price resolver query was issued during the run. -/
def priceQueryIssued (run : FindRun) : Bool :=
  match run.outcome with
  | Except.ok t => t.price_query_issued
  | Except.error _ => false

/-- Whether the run completed without a propagated exception. -/
def runCompleted (run : FindRun) : Bool :=
  match run.outcome with
  | Except.ok _ => true
  | Except.error _ => false

/-! ### Result formatting (_search_tool lines 399-401 and
_find_destination_tool lines 280-284). -/

/-- One hit yielded by the search collaborator to _search_tool. -/
structure SearchHit where
  chunk_id : String
  chunk : String

/-- The block _search_tool appends for one hit at line 401:
an opening bracket, the key, a closing bracket, a colon and a space, the
body, a newline, five hyphens, a newline. -/
def searchHitBlock (r : SearchHit) : String :=
  "[" ++ r.chunk_id ++ "]: " ++ r.chunk ++ "\n-----\n"

/-- Embeds lines 399-401: result starts empty and each hit's block is
appended in the order the collaborator yields the hits. -/
def searchResultText (hits : List SearchHit) : String :=
  hits.foldl (fun result r => result ++ searchHitBlock r) ""

/-- One hit yielded by the search collaborator to _find_destination_tool. -/
structure DestinationHit where
  destination : String
  destination_pt : String
  country : String
  country_pt : String
  categories : String

/-- The block _find_destination_tool builds for one hit at line 282. -/
def destinationItemString (item : DestinationHit) : String :=
  "[" ++ item.destination ++ " @KB]: Destination: " ++ item.destination ++
  "\n" ++ item.destination_pt ++ "\nCountry: " ++ item.country ++ "\n" ++
  item.country_pt ++ "\nCategories: " ++ item.categories ++ "\n-----\n"

/-- Embeds lines 280-284: result starts empty and each hit's block is
appended in the order the collaborator yields the hits. -/
def findDestinationResultText (hits : List DestinationHit) : String :=
  hits.foldl (fun result item => result ++ destinationItemString item) ""

/-- Plain ordered concatenation of one block per element. -/
def concatBlocks (f : α → String) : List α → String
  | [] => ""
  | x :: xs => f x ++ concatBlocks f xs

/-! ### Theorems -/

theorem foldl_append_concatBlocks (f : α → String) (l : List α) (acc : String) :
    l.foldl (fun r x => r ++ f x) acc = acc ++ concatBlocks f l := by
  induction l generalizing acc with
  | nil => simp [concatBlocks]
  | cons x xs ih => simp [concatBlocks, List.foldl_cons, ih, String.append_assoc]

/-- C8: for every finite sequence of hits returned by the search
collaborator, the formatted tool result is the concatenation, in that same
order with no reordering, of one block per hit of the exact shape
bracket-key-bracket-colon-space-body-newline-dashes-newline; this holds for
the generic search tool and for the find_destination formatter. -/
theorem formatted_results_are_ordered_block_concatenation
    (hits : List SearchHit) (destinationHits : List DestinationHit) :
    searchResultText hits = concatBlocks searchHitBlock hits ∧
    findDestinationResultText destinationHits =
      concatBlocks destinationItemString destinationHits := by
  constructor
  · simpa [searchResultText] using foldl_append_concatBlocks searchHitBlock hits ""
  · simpa [findDestinationResultText] using
      foldl_append_concatBlocks destinationItemString destinationHits ""

/-- C9: grounding verification is idempotent - filtering the claimed keys
through KEY_PATTERN twice yields the same validated list as filtering once. -/
theorem verify_idempotent (claimed : List String) :
    verifySources (verifySources claimed) = verifySources claimed := by
  simp [verifySources, List.filter_filter]

/-- C4 counterexample: for the claimed-source list of the spec scenario,
the verification does not yield the Paris key - it yields the empty list,
because the at-sign of the first key is outside the allow-list class, so
both keys are dropped. -/
theorem grounding_scenario_keeps_no_key :
    verifySources ["Paris@KB", "\x27; DROP--"] = [] ∧
    "Paris@KB" ∉ verifySources ["Paris@KB", "\x27; DROP--"] := by decide

/-- C4 amended: for the claimed-source list of the spec scenario, the
grounding tool returns the empty validated list whatever the index holds:
both keys fail KEY_PATTERN. -/
theorem grounding_scenario_returns_empty_for_any_index (index : SearchIndex) :
    report_grounding_tool index ["Paris@KB", "\x27; DROP--"] = [] ∧
    keyMatches "Paris@KB" = false ∧
    keyMatches "\x27; DROP--" = false := by
  exact ⟨rfl, by decide, by decide⟩

/-- C5 counterexample: a well-formed claimed key that is absent from the
search index is still returned to the client - the grounding tool returns
the client-asserted key without any index verification (the re-query block
is commented out in the source). -/
theorem grounding_returns_key_absent_from_index :
    report_grounding_tool ⟨[]⟩ ["ghost"] = ["ghost"] ∧
    ∀ r ∈ (⟨[]⟩ : SearchIndex).docs, r.chunk_id ≠ "ghost" := by
  exact ⟨rfl, by simp⟩

/-- C5 amended: report_grounding never reads the search index - its result
is the KEY_PATTERN-filtered claimed keys, identical for any two indexes, and
it fetches no title or body record. -/
theorem report_grounding_ignores_index (i j : SearchIndex)
    (sources : List String) :
    report_grounding_tool i sources = report_grounding_tool j sources ∧
    report_grounding_tool i sources = verifySources sources :=
  ⟨rfl, rfl⟩

theorem char_of_accepted_key (s : String) (c : Char) (hc : c ∈ s.data)
    (hm : keyMatches s = true) : keyChar c = true ∨ c = Char.ofNat 10 := by
  unfold keyMatches at hm
  by_cases hlast : s.data.getLast? = some (Char.ofNat 10)
  · simp only [hlast, if_pos rfl, Bool.and_eq_true, List.all_eq_true] at hm
    have hne : s.data ≠ [] := by
      intro h
      rw [h] at hlast
      simp at hlast
    have hdecomp : s.data.dropLast ++ [s.data.getLast hne] = s.data :=
      List.dropLast_append_getLast hne
    have hlastval : s.data.getLast hne = Char.ofNat 10 := by
      have := List.getLast?_eq_getLast s.data hne
      rw [this] at hlast
      exact Option.some_injective _ hlast.symm |>.symm
    rw [← hdecomp] at hc
    rcases List.mem_append.mp hc with h1 | h2
    · exact Or.inl (hm.2 c h1)
    · right
      rw [← hlastval]
      simpa using h2
  · simp only [hlast, if_neg hlast, Bool.and_eq_true, List.all_eq_true] at hm
    exact Or.inl (hm.2 c hc)

/-- C6: the claim as amended - a claimed key containing a character outside
the allow-list class other than a newline is excluded from the validated
output; exclusion is a silent drop (the filter is total, no error path
exists), and nothing at all is forwarded to the search collaborator. -/
theorem verify_excludes_bad_char_keys (l : List String) (s : String)
    (c : Char) (hmem : c ∈ s.data) (hbad : keyChar c = false)
    (hnl : c ≠ Char.ofNat 10) : s ∉ verifySources l := by
  intro hin
  have hm : keyMatches s = true := (List.mem_filter.mp hin).2
  rcases char_of_accepted_key s c hmem hm with h | h
  · rw [hbad] at h
    cases h
  · exact hnl h

theorem verify_excludes_bad_char_keys_witness :
    "a b" ∉ verifySources ["ok_key", "a b"] :=
  verify_excludes_bad_char_keys ["ok_key", "a b"] "a b" (Char.ofNat 32)
    (by decide) (by decide) (by decide)

/-- C6 counterexample: the string made of a, b, c and a trailing newline
contains a character outside the allow-list class, yet the validated output
does not exclude it - Python dollar-anchor semantics accept one trailing
newline, so KEY_PATTERN.match keeps the key. -/
theorem trailing_newline_key_not_excluded :
    keyChar (Char.ofNat 10) = false ∧
    Char.ofNat 10 ∈ "abc\n".data ∧
    verifySources ["abc\n"] = ["abc\n"] := by decide

/-- C2 counterexample: with the non-empty eligibility set holding MAD and
empty categories, the synthesized filter is the bare equality predicate with
no parenthesis character anywhere, so it is not a parenthesized group. -/
theorem or_group_filter_lacks_parentheses :
    synthesizeFilter ["MAD"] [] = "iata_code eq " ++ sq ++ "MAD" ++ sq ∧
    ("iata_code eq " ++ sq ++ "MAD" ++ sq).data.contains (Char.ofNat 40) = false := by
  constructor
  · rfl
  · decide

/-- C2 amended: for every eligibility set and empty categories, the
synthesized filter is exactly the destination-code equality predicates
joined by the or keyword, with no category predicate and with no
parentheses added around or inside the group (the source adds parentheses
only when a category group is also present). -/
theorem filter_without_categories_is_or_join (eligibility : List String) :
    synthesizeFilter eligibility [] =
      String.intercalate " or "
        (eligibility.map fun destination =>
          "iata_code eq " ++ sq ++ destination ++ sq) := by
  cases eligibility with
  | nil => rfl
  | cons x xs => rfl

/-- C3: the claim fails on the code - for an argument object that has
current_location but omits categories, execution does reach the bare
reference to the unassigned categories variable, so the tool raises an
unbound-local error before opening the database connection instead of
running to completion. -/
theorem categories_absent_raises_unbound_local (conn : StoreConn) :
    find_destination_tool conn { current_location := "LIS" } =
      ⟨Except.error unboundLocalMsg, false, false⟩ := rfl

/-- A database where LIS reaches BCN in ten hours and MAD costs 150:
a maximum duration of three hours matches no row, while a maximum price of
two hundred matches MAD. -/
def exampleDB : FlightDB :=
  ⟨[⟨"LIS", "BCN", 10⟩], [⟨"LIS", "MAD", 150⟩]⟩

/-- C1: the claim is the intended policy and the code violates it - with a
supplied maximum duration of three hours that matches zero rows (the
duration query is issued and returns the empty list) and a supplied maximum
price matching MAD, the eligibility-combining step yields the MAD singleton
instead of the empty intersection: the present-but-empty duration set is
dropped as if the constraint were absent, because the branches of lines
242-247 test non-emptiness of the result lists, not whether the constraint
was supplied. -/
theorem supplied_empty_duration_set_dropped :
    (find_destination_tool (healthyConn exampleDB)
        { current_location := "LIS", max_flight_duration := some 3,
          max_price := some 200, categories := some [] }).outcome =
      Except.ok ⟨[], ["MAD"], ["MAD"],
        "iata_code eq " ++ sq ++ "MAD" ++ sq, "travel", true, true⟩ := by
  rfl

/-- A connection over which the duration query raises. -/
def raisingConn : StoreConn where
  durationQuery := fun _ _ => QueryOutcome.raises "pyodbc error"
  priceQuery := fun _ _ => QueryOutcome.rows []

/-- C7 counterexample: an invocation whose duration resolver query raises
opens the connection but never releases it - conn.close() at line 237 is
skipped when the exception of line 227 propagates, so the release is not
guaranteed on every exit path. -/
theorem connection_not_released_on_query_failure :
    (find_destination_tool raisingConn
        { current_location := "LIS", max_flight_duration := some 3,
          categories := some [] }).conn_opened = true ∧
    (find_destination_tool raisingConn
        { current_location := "LIS", max_flight_duration := some 3,
          categories := some [] }).conn_released = false ∧
    runCompleted (find_destination_tool raisingConn
        { current_location := "LIS", max_flight_duration := some 3,
          categories := some [] }) = false :=
  ⟨rfl, rfl, rfl⟩

/-- C7 amended: the connection is released exactly on the runs that
complete normally - a resolver exception skips the close call - and it is
opened exactly when the categories argument is present (otherwise the
unbound-local error fires before the connect call). -/
theorem connection_released_iff_run_completed (conn : StoreConn)
    (args : FindArgs) :
    (find_destination_tool conn args).conn_released =
      runCompleted (find_destination_tool conn args) ∧
    (find_destination_tool conn args).conn_opened = args.categories.isSome := by
  rcases args with ⟨loc, dur, pr, cats, cont⟩
  cases cats with
  | none => exact ⟨rfl, rfl⟩
  | some cs =>
    cases dur with
    | none =>
      cases pr with
      | none => exact ⟨rfl, rfl⟩
      | some p =>
        constructor
        · dsimp only [find_destination_tool]
          split <;> rfl
        · dsimp only [find_destination_tool]
          split <;> rfl
    | some d =>
      constructor
      · dsimp only [find_destination_tool]
        split <;> first | rfl | (split <;> rfl)
      · dsimp only [find_destination_tool]
        split <;> first | rfl | (split <;> rfl)

/-- C10: a supplied zero-valued numeric constraint is treated identically
to an absent one - Python truthiness of zero skips the resolver block - so
no resolver query is issued for it and the whole run is unchanged if the
zero value is removed from the arguments. -/
theorem zero_numeric_constraint_behaves_as_absent (conn : StoreConn)
    (args : FindArgs) :
    find_destination_tool conn { args with max_flight_duration := some 0 } =
      find_destination_tool conn { args with max_flight_duration := none } ∧
    find_destination_tool conn { args with max_price := some 0 } =
      find_destination_tool conn { args with max_price := none } ∧
    durationQueryIssued (find_destination_tool conn
      { args with max_flight_duration := some 0 }) = false ∧
    priceQueryIssued (find_destination_tool conn
      { args with max_price := some 0 }) = false := by
  rcases args with ⟨loc, dur, pr, cats, cont⟩
  refine ⟨?_, ?_, ?_, ?_⟩
  · cases cats <;> rfl
  · cases cats <;> rfl
  · cases cats with
    | none => rfl
    | some cs =>
      dsimp only [find_destination_tool]
      split <;> first | rfl | (split <;> rfl)
  · cases cats with
    | none => rfl
    | some cs =>
      dsimp only [find_destination_tool]
      split <;> rfl

end RagTools
